import Mathlib

/-!
Shallow embedding of `src/src/main.cpp` (an ESP32 WiFi API poller) and proofs
about its polling orchestration: the shared request counters, the per-worker
outcome recording, the LED indicators, the WiFi connect/recover logic, and the
per-cycle summary.

Machine integers of the source (`int`, which never approach their bounds here)
are modelled as `Int`; `digitalWrite(PIN, HIGH/LOW)` on a LED pin is modelled
as a `Bool` field (`true` = HIGH = on); FreeRTOS tasks are modelled by an
explicit linearization: each worker's recording step is one atomic state
update, and a completed cycle is a fold of those updates.
-/

namespace SvitloWatcher

/-- HTTP 200, the `HTTP_CODE_OK` constant of the Arduino HTTPClient library
(compared against at src/src/main.cpp line 324). -/
def HTTP_CODE_OK : Int := 200

/-- `HTTPC_ERROR_CONNECTION_REFUSED` from the Arduino HTTPClient library
(src/src/main.cpp line 366). -/
def HTTPC_ERROR_CONNECTION_REFUSED : Int := -1

/-- `HTTPC_ERROR_CONNECTION_LOST` from the Arduino HTTPClient library
(src/src/main.cpp line 370). -/
def HTTPC_ERROR_CONNECTION_LOST : Int := -5

/-- `HTTPC_ERROR_READ_TIMEOUT` from the Arduino HTTPClient library
(src/src/main.cpp line 374). -/
def HTTPC_ERROR_READ_TIMEOUT : Int := -11

/-- `NUM_ENDPOINTS = sizeof(API_ENDPOINTS)/sizeof(API_ENDPOINTS[0])`:
the endpoint array at src/src/main.cpp lines 17-21 has two entries
(`API_ENDPOINT_1`, `API_ENDPOINT_2` from the configuration header). -/
def NUM_ENDPOINTS : Nat := 2

/-- `MAX_ATTEMPTS` of `connectToWiFi` (src/src/main.cpp line 134). -/
def MAX_ATTEMPTS : Nat := 30

/-- The fixed spacing of WiFi connection attempts, ms (src/src/main.cpp
line 137: `delay(500)`). -/
def WIFI_ATTEMPT_DELAY_MS : Nat := 500

/-- The mutable globals of src/src/main.cpp lines 32-35 that the claims are
about, together with the two LED output levels:
`activeRequests`, `failedRequests` (plain `int` globals), and the levels last
written to `RED_LED_PIN` and `BLUE_LED_PIN` (`true` = HIGH = lit). -/
structure SysState where
  activeRequests : Int
  failedRequests : Int
  redLED : Bool
  blueLED : Bool
deriving DecidableEq

/-- The human-readable transport failure reasons logged at
src/src/main.cpp lines 366-378. -/
inductive Reason
  | connectionRefused
  | connectionLost
  | readTimeout
  | other
deriving DecidableEq

/-- A worker outcome: per the response handling of `sendGetRequest`
(src/src/main.cpp lines 318-379). -/
inductive Outcome
  | success
  | httpError (code : Int)
  | transportError (r : Reason)
deriving DecidableEq

/-- What the HTTP exchange of one worker yielded: `http.begin` failed
(src/src/main.cpp line 289), or `http.GET()` returned `code`
(src/src/main.cpp line 315). -/
inductive WorkerResult
  | beginFail
  | httpResult (code : Int)
deriving DecidableEq

/-- The reason chosen by the error logging chain at
src/src/main.cpp lines 366-378. -/
def reasonFor (code : Int) : Reason :=
  if code = HTTPC_ERROR_CONNECTION_REFUSED then Reason.connectionRefused
  else if code = HTTPC_ERROR_CONNECTION_LOST then Reason.connectionLost
  else if code = HTTPC_ERROR_READ_TIMEOUT then Reason.readTimeout
  else Reason.other

/-- Classification of an `http.GET()` return value, following the branch
structure of src/src/main.cpp lines 318-379: `httpCode > 0` and equal to
`HTTP_CODE_OK` is success; any other positive code is an HTTP error; a
non-positive code is a transport error. -/
def classify (httpCode : Int) : Outcome :=
  if 0 < httpCode then
    if httpCode = HTTP_CODE_OK then Outcome.success
    else Outcome.httpError httpCode
  else Outcome.transportError (reasonFor httpCode)

/-- Classification of a whole worker result; a `http.begin` failure is handled
exactly like a transport failure (src/src/main.cpp lines 289-304). -/
def classifyResult : WorkerResult → Outcome
  | WorkerResult.beginFail => Outcome.transportError Reason.other
  | WorkerResult.httpResult code => classify code

/-- Did the worker result classify as success? -/
def resultSuccess (res : WorkerResult) : Bool :=
  decide (classifyResult res = Outcome.success)

/-- The state effect of the success branch of `sendGetRequest`
(src/src/main.cpp lines 324-338): under the mutex, if `failedRequests == 0`
the red LED is written LOW; counters unchanged. -/
def recordSuccess (s : SysState) : SysState :=
  { s with redLED := if s.failedRequests = 0 then false else s.redLED }

/-- The state effect shared by every failure branch of `sendGetRequest`
(src/src/main.cpp lines 289-304, 339-351, 352-379): under the mutex the red
LED is written HIGH, then `failedRequests++` (outside the mutex). -/
def recordFailure (s : SysState) : SysState :=
  { s with redLED := true, failedRequests := s.failedRequests + 1 }

/-- The state effect of one call to `sendGetRequest`
(src/src/main.cpp lines 277-384), given what the HTTP exchange yielded. -/
def sendGetRequest (res : WorkerResult) (s : SysState) : SysState :=
  match res with
  | WorkerResult.beginFail => recordFailure s
  | WorkerResult.httpResult code =>
      if 0 < code then
        if code = HTTP_CODE_OK then recordSuccess s else recordFailure s
      else recordFailure s

/-- The state effect of one whole worker task `sendGetRequestTask`
(src/src/main.cpp lines 265-275): run `sendGetRequest`, then
`activeRequests--`. -/
def sendGetRequestTask (res : WorkerResult) (s : SysState) : SysState :=
  let s1 := sendGetRequest res s
  { s1 with activeRequests := s1.activeRequests - 1 }

lemma classify_success_iff (c : Int) :
    classify c = Outcome.success ↔ (0 < c ∧ c = HTTP_CODE_OK) := by
  by_cases h1 : 0 < c
  · by_cases h2 : c = HTTP_CODE_OK
    · simp [classify, h1, h2]
    · simp [classify, h1, h2]
  · simp [classify, h1]

lemma sendGetRequest_of_success {res : WorkerResult} (s : SysState)
    (h : resultSuccess res = true) : sendGetRequest res s = recordSuccess s := by
  cases res with
  | beginFail => simp [resultSuccess, classifyResult] at h
  | httpResult c =>
    simp [resultSuccess, classifyResult, classify_success_iff] at h
    simp [sendGetRequest, h.1, h.2, HTTP_CODE_OK]

lemma sendGetRequest_of_failure {res : WorkerResult} (s : SysState)
    (h : resultSuccess res = false) : sendGetRequest res s = recordFailure s := by
  cases res with
  | beginFail => rfl
  | httpResult c =>
    simp [resultSuccess, classifyResult, classify_success_iff] at h
    by_cases h1 : 0 < c
    · by_cases h2 : c = HTTP_CODE_OK
      · exact absurd h2 (h h1)
      · simp [sendGetRequest, h1, h2]
    · simp [sendGetRequest, h1]

lemma task_activeRequests (res : WorkerResult) (s : SysState) :
    (sendGetRequestTask res s).activeRequests = s.activeRequests - 1 := by
  rcases h : resultSuccess res with _ | _
  · rw [sendGetRequestTask, sendGetRequest_of_failure s h]; rfl
  · rw [sendGetRequestTask, sendGetRequest_of_success s h]; rfl

lemma task_failedRequests (res : WorkerResult) (s : SysState) :
    (sendGetRequestTask res s).failedRequests =
      s.failedRequests + (if resultSuccess res then 0 else 1) := by
  rcases h : resultSuccess res with _ | _
  · rw [sendGetRequestTask, sendGetRequest_of_failure s h]; simp [recordFailure]
  · rw [sendGetRequestTask, sendGetRequest_of_success s h]; simp [recordSuccess]

lemma task_redLED (res : WorkerResult) (s : SysState) :
    (sendGetRequestTask res s).redLED =
      (if resultSuccess res then
        (if s.failedRequests = 0 then false else s.redLED)
      else true) := by
  rcases h : resultSuccess res with _ | _
  · rw [sendGetRequestTask, sendGetRequest_of_failure s h]; simp [recordFailure]
  · rw [sendGetRequestTask, sendGetRequest_of_success s h]; simp [recordSuccess]

lemma task_blueLED (res : WorkerResult) (s : SysState) :
    (sendGetRequestTask res s).blueLED = s.blueLED := by
  rcases h : resultSuccess res with _ | _
  · rw [sendGetRequestTask, sendGetRequest_of_failure s h]; rfl
  · rw [sendGetRequestTask, sendGetRequest_of_success s h]; rfl

/-- C1: recording one worker outcome (`sendGetRequest` response handling
followed by the `sendGetRequestTask` decrement, src/src/main.cpp lines
265-384) decrements `activeRequests` by 1; on a non-success outcome it
increments `failedRequests` by 1 and sets the red (error) LED; on a success
outcome it leaves `failedRequests` unchanged, clears the red LED when
`failedRequests = 0` at that moment, and leaves the red LED unchanged when
`failedRequests ≠ 0`. -/
theorem claimC1_recordOutcome (res : WorkerResult) (s : SysState) :
    (sendGetRequestTask res s).activeRequests = s.activeRequests - 1 ∧
    (resultSuccess res = false →
      (sendGetRequestTask res s).failedRequests = s.failedRequests + 1 ∧
      (sendGetRequestTask res s).redLED = true) ∧
    (resultSuccess res = true →
      (sendGetRequestTask res s).failedRequests = s.failedRequests ∧
      (s.failedRequests = 0 → (sendGetRequestTask res s).redLED = false) ∧
      (s.failedRequests ≠ 0 → (sendGetRequestTask res s).redLED = s.redLED)) := by
  refine ⟨task_activeRequests res s, ?_, ?_⟩
  · intro h
    rw [task_failedRequests, task_redLED, h]
    simp
  · intro h
    rw [task_failedRequests, task_redLED, h]
    refine ⟨by simp, ?_, ?_⟩
    · intro h0; simp [h0]
    · intro h0; simp [h0]

/-- Witness for C1 at a concrete outcome and state. -/
theorem claimC1_witness :
    (sendGetRequestTask (WorkerResult.httpResult 200) ⟨2, 0, true, false⟩).redLED
      = false :=
  ((claimC1_recordOutcome (WorkerResult.httpResult 200) ⟨2, 0, true, false⟩).2.2
    (by decide)).2.1 rfl

/-- The linearized combined effect of the workers of one cycle: each worker's
recording is one atomic update, applied in completion order. `results` lists
what each worker's HTTP exchange yielded. -/
def runWorkers (results : List WorkerResult) (s : SysState) : SysState :=
  results.foldl (fun st res => sendGetRequestTask res st) s

/-- How many of the listed worker results classify as non-success. -/
def countFailures (results : List WorkerResult) : Int :=
  ((results.filter (fun res => !resultSuccess res)).length : Int)

/-- The counter reset at the start of a cycle (src/src/main.cpp lines 217-219):
`activeRequests = NUM_ENDPOINTS; failedRequests = 0`. -/
def cycleResetState (n : Nat) (s : SysState) : SysState :=
  { s with activeRequests := (n : Int), failedRequests := 0 }

/-- The exit condition of the completion wait loop
`while (activeRequests > 0) delay(50);` (src/src/main.cpp lines 249-251). -/
def isComplete (s : SysState) : Bool := !(decide (0 < s.activeRequests))

/-- What one invocation of `pollEndpoints` produces: the final state, the
number of worker tasks created, and the cycle summary
(`some true` = "All requests successful", `some false` = some requests
failed, `none` = the cycle was skipped because WiFi was down). -/
structure PollResult where
  state : SysState
  spawned : Nat
  summary : Option Bool
deriving DecidableEq

/-- One invocation of `pollEndpoints` (src/src/main.cpp lines 201-262).
`link` is the value of `WiFi.status() == WL_CONNECTED` at entry; `n` is the
configured endpoint count (`NUM_ENDPOINTS`, a configuration parameter since
the endpoint list comes from the configuration header); `results` lists what
each spawned worker's exchange yielded, in completion order (a completed
cycle has `results.length = n`). -/
def pollEndpoints (link : Bool) (n : Nat) (results : List WorkerResult)
    (s : SysState) : PollResult :=
  if !link then
    { state := { s with redLED := true }, spawned := 0, summary := none }
  else
    let s1 := runWorkers results (cycleResetState n s)
    { state := s1, spawned := n,
      summary := some (!(decide (0 < s1.failedRequests))) }

lemma runWorkers_nil (s : SysState) : runWorkers [] s = s := rfl

lemma runWorkers_cons (r : WorkerResult) (rs : List WorkerResult)
    (s : SysState) :
    runWorkers (r :: rs) s = runWorkers rs (sendGetRequestTask r s) := rfl

lemma countFailures_cons (r : WorkerResult) (rs : List WorkerResult) :
    countFailures (r :: rs) =
      (if resultSuccess r then 0 else 1) + countFailures rs := by
  rcases h : resultSuccess r with _ | _
  · simp [countFailures, List.filter_cons, h]
    ring
  · simp [countFailures, List.filter_cons, h]

lemma runWorkers_failedRequests (rs : List WorkerResult) : ∀ s : SysState,
    (runWorkers rs s).failedRequests = s.failedRequests + countFailures rs := by
  induction rs with
  | nil => intro s; simp [runWorkers_nil, countFailures]
  | cons r rest ih =>
    intro s
    rw [runWorkers_cons, ih, countFailures_cons, task_failedRequests]
    ring

lemma runWorkers_activeRequests (rs : List WorkerResult) : ∀ s : SysState,
    (runWorkers rs s).activeRequests = s.activeRequests - rs.length := by
  induction rs with
  | nil => intro s; simp [runWorkers_nil]
  | cons r rest ih =>
    intro s
    rw [runWorkers_cons, ih, task_activeRequests]
    simp only [List.length_cons]
    push_cast
    ring

lemma runWorkers_blueLED (rs : List WorkerResult) : ∀ s : SysState,
    (runWorkers rs s).blueLED = s.blueLED := by
  induction rs with
  | nil => intro s; rfl
  | cons r rest ih =>
    intro s
    rw [runWorkers_cons, ih, task_blueLED]

lemma runWorkers_redLED (rs : List WorkerResult) : ∀ s : SysState,
    rs ≠ [] → 0 ≤ s.failedRequests → (s.failedRequests ≠ 0 → s.redLED = true) →
    (runWorkers rs s).redLED =
      decide ((runWorkers rs s).failedRequests ≠ 0) := by
  induction rs with
  | nil => intro s h _ _; exact absurd rfl h
  | cons r rest ih =>
    intro s _ hnn hred
    cases rest with
    | nil =>
      rw [runWorkers_cons, runWorkers_nil, task_redLED, task_failedRequests]
      rcases h : resultSuccess r with _ | _
      · simp only [Bool.false_eq_true, if_false]
        exact (decide_eq_true (by omega)).symm
      · simp only [if_true]
        by_cases h0 : s.failedRequests = 0
        · rw [if_pos h0, h0]
          simp
        · rw [if_neg h0, hred h0]
          exact (decide_eq_true (by omega)).symm
    | cons b t =>
      rw [runWorkers_cons]
      refine ih (sendGetRequestTask r s) (by simp) ?_ ?_
      · rw [task_failedRequests]
        rcases resultSuccess r with _ | _ <;> simp <;> omega
      · rw [task_failedRequests, task_redLED]
        rcases h : resultSuccess r with _ | _
        · intro _; simp
        · by_cases h0 : s.failedRequests = 0
          · rw [if_pos h0, h0]
            simp
          · rw [if_neg h0]
            intro _
            exact hred h0

/-- C3: for a completed cycle with the link up (one worker result per
configured endpoint), the final `failedRequests` equals the number of
non-success worker results, and it is zero exactly when the red (error) LED
ends the cycle off. -/
theorem claimC3_cycleTally (results : List WorkerResult) (s : SysState)
    (hlen : results.length = NUM_ENDPOINTS) :
    (pollEndpoints true NUM_ENDPOINTS results s).state.failedRequests =
      countFailures results ∧
    ((pollEndpoints true NUM_ENDPOINTS results s).state.failedRequests = 0 ↔
      (pollEndpoints true NUM_ENDPOINTS results s).state.redLED = false) := by
  have hne : results ≠ [] := by
    intro h
    rw [h] at hlen
    simp [NUM_ENDPOINTS] at hlen
  have hstate : (pollEndpoints true NUM_ENDPOINTS results s).state =
      runWorkers results (cycleResetState NUM_ENDPOINTS s) := by
    simp [pollEndpoints]
  rw [hstate]
  have hfail : (runWorkers results (cycleResetState NUM_ENDPOINTS s)).failedRequests
      = countFailures results := by
    rw [runWorkers_failedRequests]
    simp [cycleResetState]
  refine ⟨hfail, ?_⟩
  have hred := runWorkers_redLED results (cycleResetState NUM_ENDPOINTS s) hne
    (by simp [cycleResetState]) (by simp [cycleResetState])
  rw [hred, hfail]
  by_cases h0 : countFailures results = 0
  · simp [h0]
  · simp [h0]

/-- Witness for C3 at a concrete two-endpoint cycle (one 200, one 500). -/
theorem claimC3_witness :
    (pollEndpoints true NUM_ENDPOINTS
        [WorkerResult.httpResult 200, WorkerResult.httpResult 500]
        ⟨0, 0, false, false⟩).state.failedRequests =
      countFailures [WorkerResult.httpResult 200, WorkerResult.httpResult 500] :=
  (claimC3_cycleTally
    [WorkerResult.httpResult 200, WorkerResult.httpResult 500]
    ⟨0, 0, false, false⟩ (by decide)).1

/-- C5: invoked with WiFi not connected, `pollEndpoints` only sets the red
(error) LED and returns: both counters are unchanged, no worker task is
created, and no cycle summary is produced (src/src/main.cpp lines 201-211). -/
theorem claimC5_notConnectedGate (n : Nat) (results : List WorkerResult)
    (s : SysState) :
    (pollEndpoints false n results s).state.activeRequests = s.activeRequests ∧
    (pollEndpoints false n results s).state.failedRequests = s.failedRequests ∧
    (pollEndpoints false n results s).spawned = 0 ∧
    (pollEndpoints false n results s).state.redLED = true ∧
    (pollEndpoints false n results s).state.blueLED = s.blueLED ∧
    (pollEndpoints false n results s).summary = none := by
  simp [pollEndpoints]

/-- The spec's `recordOutcome(success)`: what one worker records, as performed
by `sendGetRequestTask` on a success (HTTP 200) or on a failure. -/
def recordOutcome (success : Bool) (s : SysState) : SysState :=
  sendGetRequestTask
    (if success then WorkerResult.httpResult HTTP_CODE_OK
     else WorkerResult.beginFail) s

lemma recordOutcome_apply (success : Bool) (s : SysState) :
    recordOutcome success s =
      sendGetRequestTask
        (if success then WorkerResult.httpResult HTTP_CODE_OK
         else WorkerResult.beginFail) s := rfl

lemma iterate_recordOutcome_activeRequests (b : Bool) (k : Nat) :
    ∀ s : SysState,
      ((recordOutcome b)^[k] s).activeRequests = s.activeRequests - k := by
  induction k with
  | zero => intro s; simp
  | succ k ih =>
    intro s
    rw [Function.iterate_succ_apply, ih, recordOutcome_apply,
      task_activeRequests]
    push_cast
    ring

lemma iterate_recordOutcome_true_failed (k : Nat) : ∀ s : SysState,
    ((recordOutcome true)^[k] s).failedRequests = s.failedRequests := by
  induction k with
  | zero => intro s; simp
  | succ k ih =>
    intro s
    rw [Function.iterate_succ_apply, ih, recordOutcome_apply]
    rw [task_failedRequests]
    simp [resultSuccess, classifyResult, classify, HTTP_CODE_OK]

lemma iterate_recordOutcome_false_failed (k : Nat) : ∀ s : SysState,
    ((recordOutcome false)^[k] s).failedRequests = s.failedRequests + k := by
  induction k with
  | zero => intro s; simp
  | succ k ih =>
    intro s
    rw [Function.iterate_succ_apply, ih, recordOutcome_apply]
    rw [task_failedRequests]
    simp only [if_false, Bool.false_eq_true]
    rw [resultSuccess]
    push_cast
    simp [classifyResult]
    ring

/-- C6: after `reset(N)` (the counter reset) followed by `N` successful
`recordOutcome` calls, `failedRequests = 0` and the completion condition
holds; after `reset(N)` followed by `N` failing `recordOutcome` calls,
`failedRequests = N` and the completion condition holds. -/
theorem claimC6_roundTrip (N : Nat) (s : SysState) :
    ((recordOutcome true)^[N] (cycleResetState N s)).failedRequests = 0 ∧
    isComplete ((recordOutcome true)^[N] (cycleResetState N s)) = true ∧
    ((recordOutcome false)^[N] (cycleResetState N s)).failedRequests = (N : Int) ∧
    isComplete ((recordOutcome false)^[N] (cycleResetState N s)) = true := by
  have hactive : ∀ b : Bool,
      ((recordOutcome b)^[N] (cycleResetState N s)).activeRequests = 0 := by
    intro b
    rw [iterate_recordOutcome_activeRequests]
    simp [cycleResetState]
  refine ⟨?_, ?_, ?_, ?_⟩
  · rw [iterate_recordOutcome_true_failed]
    simp [cycleResetState]
  · rw [isComplete, hactive true]
    simp
  · rw [iterate_recordOutcome_false_failed]
    simp [cycleResetState]
  · rw [isComplete, hactive false]
    simp

/-- C9: a cycle with zero configured endpoints while WiFi is connected
creates no worker task, the completion wait exits at once (the reset already
left `activeRequests = 0`), the summary reports success, and
`failedRequests` ends at 0. -/
theorem claimC9_zeroEndpoints (s : SysState) :
    (pollEndpoints true 0 [] s).spawned = 0 ∧
    (cycleResetState 0 s).activeRequests = 0 ∧
    isComplete (cycleResetState 0 s) = true ∧
    (pollEndpoints true 0 [] s).summary = some true ∧
    (pollEndpoints true 0 [] s).state.failedRequests = 0 := by
  refine ⟨by simp [pollEndpoints], by simp [cycleResetState], ?_, ?_, ?_⟩
  · simp [isComplete, cycleResetState]
  · simp [pollEndpoints, runWorkers_nil, cycleResetState]
  · simp [pollEndpoints, runWorkers_nil, cycleResetState]

/-- C4: classification of an `http.GET()` return value is exhaustive (every
`Int` maps to one of the three outcomes) and as the source branches: a
positive code equal to `HTTP_CODE_OK` is success, any other positive code is
`httpError`, any non-positive code is `transportError`; and `sendGetRequest`
increments `failedRequests` exactly when the outcome is not success. -/
theorem claimC4_classification (code : Int) (s : SysState) :
    (classify code = Outcome.success ∨ classify code = Outcome.httpError code ∨
      classify code = Outcome.transportError (reasonFor code)) ∧
    (0 < code → code = HTTP_CODE_OK → classify code = Outcome.success) ∧
    (0 < code → code ≠ HTTP_CODE_OK → classify code = Outcome.httpError code) ∧
    (code ≤ 0 → classify code = Outcome.transportError (reasonFor code)) ∧
    ((sendGetRequest (WorkerResult.httpResult code) s).failedRequests =
      if classify code = Outcome.success then s.failedRequests
      else s.failedRequests + 1) := by
  refine ⟨?_, ?_, ?_, ?_, ?_⟩
  · unfold classify
    by_cases h1 : 0 < code
    · by_cases h2 : code = HTTP_CODE_OK
      · rw [if_pos h1, if_pos h2, h2]
        exact Or.inl rfl
      · rw [if_pos h1, if_neg h2]
        exact Or.inr (Or.inl rfl)
    · rw [if_neg h1]
      exact Or.inr (Or.inr rfl)
  · intro h1 h2
    simp [classify, h1, h2, HTTP_CODE_OK]
  · intro h1 h2
    simp [classify, h1, h2]
  · intro hle
    rw [classify, if_neg (by omega : ¬ 0 < code)]
  · by_cases hs : classify code = Outcome.success
    · rw [if_pos hs,
        sendGetRequest_of_success s (by simp [resultSuccess, classifyResult, hs])]
      rfl
    · rw [if_neg hs,
        sendGetRequest_of_failure s (by simp [resultSuccess, classifyResult, hs])]
      rfl

/-- Witness for C4 at a concrete non-OK positive status code. -/
theorem claimC4_witness : classify 503 = Outcome.httpError 503 :=
  (claimC4_classification 503 ⟨0, 0, false, false⟩).2.2.1 (by decide) (by decide)

/-- The blue-LED state after `blinkBlueLED(times, delayMs)`
(src/src/main.cpp lines 390-397): each loop iteration writes HIGH, delays,
writes LOW, delays, so after one iteration the LED is LOW and the remaining
iterations start from LOW. -/
def blinkBlueLED (times delayMs : Nat) (blue : Bool) : Bool :=
  match times with
  | 0 => blue
  | t + 1 => blinkBlueLED t delayMs false

/-- The sequence of levels `blinkBlueLED` writes to the blue LED pin:
HIGH then LOW, once per loop iteration (src/src/main.cpp lines 391-395). -/
def blinkWrites : Nat → List Bool
  | 0 => []
  | t + 1 => true :: false :: blinkWrites t

/-- The retry loop of `connectToWiFi` (src/src/main.cpp lines 133-140):
`while (WiFi.status() != WL_CONNECTED && attempts < MAX_ATTEMPTS) { delay(500);
attempts++; }`. `status t` is the result of the t-th
`WiFi.status() == WL_CONNECTED` check made during this call (the check at loop
test number t happens when `attempts = t`). The fuel argument only bounds the
recursion; `MAX_ATTEMPTS + 1` units are enough fuel for the loop to always
exit through its own condition. -/
def connectLoop (status : Nat → Bool) : Nat → Nat → Nat
  | attempts, 0 => attempts
  | attempts, fuel + 1 =>
      if !status attempts && decide (attempts < MAX_ATTEMPTS) then
        connectLoop status (attempts + 1) fuel
      else attempts

/-- What one call to `connectToWiFi` produces: the final state, the list of
inter-attempt delays performed, whether the final status check saw the link
up, and how many blue-LED blink iterations were requested. -/
structure ConnectOutcome where
  state : SysState
  attemptDelays : List Nat
  connected : Bool
  blinkTimes : Nat

/-- One call to `connectToWiFi` (src/src/main.cpp lines 127-164): run the
bounded retry loop, then re-check the status once more (line 142); on
success turn the red LED off and call `blinkBlueLED(3, 200)`; on failure turn
the red LED on. The function returns normally in both cases. -/
def connectToWiFi (status : Nat → Bool) (s : SysState) : ConnectOutcome :=
  let exitAttempts := connectLoop status 0 (MAX_ATTEMPTS + 1)
  if status (exitAttempts + 1) then
    { state := { s with redLED := false,
                        blueLED := blinkBlueLED 3 200 s.blueLED },
      attemptDelays := List.replicate exitAttempts WIFI_ATTEMPT_DELAY_MS,
      connected := true, blinkTimes := 3 }
  else
    { state := { s with redLED := true },
      attemptDelays := List.replicate exitAttempts WIFI_ATTEMPT_DELAY_MS,
      connected := false, blinkTimes := 0 }

lemma connectLoop_le (status : Nat → Bool) : ∀ fuel attempts,
    attempts ≤ MAX_ATTEMPTS →
    connectLoop status attempts fuel ≤ MAX_ATTEMPTS := by
  intro fuel
  induction fuel with
  | zero => intro a ha; exact ha
  | succ fuel ih =>
    intro a ha
    rw [connectLoop]
    split
    · next h =>
      simp only [Bool.and_eq_true, Bool.not_eq_true', decide_eq_true_eq] at h
      exact ih (a + 1) (by omega)
    · exact ha

lemma connectLoop_exit (status : Nat → Bool) : ∀ fuel attempts,
    MAX_ATTEMPTS + 1 ≤ attempts + fuel → attempts ≤ MAX_ATTEMPTS →
    status (connectLoop status attempts fuel) = true ∨
      connectLoop status attempts fuel = MAX_ATTEMPTS := by
  intro fuel
  induction fuel with
  | zero => intro a h1 h2; omega
  | succ fuel ih =>
    intro a h1 h2
    rw [connectLoop]
    split
    · next h =>
      simp only [Bool.and_eq_true, Bool.not_eq_true', decide_eq_true_eq] at h
      exact ih (a + 1) (by omega) (by omega)
    · next h =>
      simp only [Bool.and_eq_true, Bool.not_eq_true', decide_eq_true_eq,
        not_and, Bool.not_eq_false] at h
      by_cases hst : status a = true
      · exact Or.inl hst
      · have : MAX_ATTEMPTS ≤ a := by
          rcases Nat.lt_or_ge a MAX_ATTEMPTS with hlt | hge
          · exact absurd (h (by simp [Bool.not_eq_true] at hst; exact hst)) (by omega)
          · exact hge
        exact Or.inr (by omega)

/-- C7: `connectToWiFi` makes at most `MAX_ATTEMPTS = 30` retry delays, each
of exactly 500 ms; if the link comes up (and stays up) within the attempt
budget, the final check sees it connected, the red (error) LED is turned off
and the blue LED is pulsed HIGH exactly three times; if the final check still
sees it down, the red LED is turned on, no blink happens, and the function
still returns (no error is raised: the model is a total function). -/
theorem claimC7_establish (status : Nat → Bool) (s : SysState) :
    (connectToWiFi status s).attemptDelays.length ≤ MAX_ATTEMPTS ∧
    (∀ d ∈ (connectToWiFi status s).attemptDelays, d = WIFI_ATTEMPT_DELAY_MS) ∧
    ((∀ i j, i ≤ j → status i = true → status j = true) →
      (∃ t, t ≤ MAX_ATTEMPTS ∧ status t = true) →
      (connectToWiFi status s).connected = true ∧
      (connectToWiFi status s).state.redLED = false ∧
      (connectToWiFi status s).blinkTimes = 3 ∧
      (blinkWrites (connectToWiFi status s).blinkTimes).count true = 3) ∧
    ((connectToWiFi status s).connected = false →
      (connectToWiFi status s).state.redLED = true ∧
      (connectToWiFi status s).blinkTimes = 0) := by
  have hle : connectLoop status 0 (MAX_ATTEMPTS + 1) ≤ MAX_ATTEMPTS :=
    connectLoop_le status (MAX_ATTEMPTS + 1) 0 (by omega)
  have hup : (∀ i j, i ≤ j → status i = true → status j = true) →
      (∃ t, t ≤ MAX_ATTEMPTS ∧ status t = true) →
      status (connectLoop status 0 (MAX_ATTEMPTS + 1) + 1) = true := by
    intro mono hex
    rcases connectLoop_exit status (MAX_ATTEMPTS + 1) 0 (by omega) (by omega)
      with h | h
    · exact mono _ _ (Nat.le_succ _) h
    · obtain ⟨t, ht, hst⟩ := hex
      exact mono t _ (by omega) hst
  by_cases hf : status (connectLoop status 0 (MAX_ATTEMPTS + 1) + 1) = true
  · refine ⟨?_, ?_, ?_, ?_⟩
    · simpa [connectToWiFi, hf] using hle
    · intro d hd
      simp [connectToWiFi, hf, List.mem_replicate] at hd
      exact hd.2
    · intro _ _
      refine ⟨by simp [connectToWiFi, hf], by simp [connectToWiFi, hf],
        by simp [connectToWiFi, hf], ?_⟩
      have h3 : (connectToWiFi status s).blinkTimes = 3 := by
        simp [connectToWiFi, hf]
      rw [h3]
      decide
    · intro hcon
      rw [show (connectToWiFi status s).connected = true by
        simp [connectToWiFi, hf]] at hcon
      exact absurd hcon (by simp)
  · have hf' : status (connectLoop status 0 (MAX_ATTEMPTS + 1) + 1) = false :=
      Bool.not_eq_true _ ▸ (by simpa using hf)
    refine ⟨?_, ?_, ?_, ?_⟩
    · simpa [connectToWiFi, hf'] using hle
    · intro d hd
      simp [connectToWiFi, hf', List.mem_replicate] at hd
      exact hd.2
    · intro mono hex
      exact absurd (hup mono hex) hf
    · intro _
      exact ⟨by simp [connectToWiFi, hf'], by simp [connectToWiFi, hf']⟩

/-- Witness for C7: with the link up from the first check, the call reports
connected and turns the red LED off. -/
theorem claimC7_witness :
    (connectToWiFi (fun _ => true) ⟨0, 0, true, true⟩).connected = true ∧
    (connectToWiFi (fun _ => true) ⟨0, 0, true, true⟩).state.redLED = false :=
  ((claimC7_establish (fun _ => true) ⟨0, 0, true, true⟩).2.2.1
    (fun _ _ _ hi => hi) ⟨0, Nat.zero_le _, rfl⟩).2.1.symm ▸
    ⟨((claimC7_establish (fun _ => true) ⟨0, 0, true, true⟩).2.2.1
        (fun _ _ _ hi => hi) ⟨0, Nat.zero_le _, rfl⟩).1,
      ((claimC7_establish (fun _ => true) ⟨0, 0, true, true⟩).2.2.1
        (fun _ _ _ hi => hi) ⟨0, Nat.zero_le _, rfl⟩).2.1⟩

/-- A transition log edge emitted by `checkWiFiConnection`: the
"WiFi connection lost" line (src/src/main.cpp line 177) or the
"WiFi reconnected successfully" line (src/src/main.cpp line 188). -/
inductive Edge
  | lost
  | reconnected
deriving DecidableEq

/-- One due execution of the body of `checkWiFiConnection`
(src/src/main.cpp lines 166-195; the 1-second `lastCheckTime` gate selects
which `loop()` iterations run this body, so only the due ones are modelled).
`nowConnected` is the value of `WiFi.status() == WL_CONNECTED` this check
observed; `wasConnected` is the function's static edge-detection flag;
`estStatus` feeds the `connectToWiFi` call made while disconnected. Returns
the new flag, the new state, and the edges logged. -/
def checkWiFiConnection (nowConnected : Bool) (estStatus : Nat → Bool)
    (wasConnected : Bool) (s : SysState) : Bool × SysState × List Edge :=
  if !nowConnected then
    let step :=
      if wasConnected then (false, { s with redLED := true }, [Edge.lost])
      else (wasConnected, s, ([] : List Edge))
    (step.1, (connectToWiFi estStatus step.2.1).state, step.2.2)
  else
    if !wasConnected then (true, { s with redLED := false }, [Edge.reconnected])
    else (wasConnected, s, ([] : List Edge))

/-- A sequence of due health checks, threading the static `wasConnected` flag
and the state, collecting the logged edges in order. Each list entry gives
the link state that check observes and the status feed of any embedded
`connectToWiFi` call. -/
def runChecks : List (Bool × (Nat → Bool)) → Bool → SysState →
    Bool × SysState × List Edge
  | [], w, s => (w, s, [])
  | (now, est) :: rest, w, s =>
      let step := checkWiFiConnection now est w s
      let restRun := runChecks rest step.1 step.2.1
      (restRun.1, restRun.2.1, step.2.2 ++ restRun.2.2)

lemma check_down_stable (est : Nat → Bool) (s : SysState) :
    checkWiFiConnection false est false s =
      (false, (connectToWiFi est s).state, []) := by
  simp [checkWiFiConnection]

lemma check_down_edge (est : Nat → Bool) (s : SysState) :
    checkWiFiConnection false est true s =
      (false, (connectToWiFi est { s with redLED := true }).state,
        [Edge.lost]) := by
  simp [checkWiFiConnection]

lemma check_up_stable (est : Nat → Bool) (s : SysState) :
    checkWiFiConnection true est true s = (true, s, []) := by
  simp [checkWiFiConnection]

lemma check_up_edge (est : Nat → Bool) (s : SysState) :
    checkWiFiConnection true est false s =
      (true, { s with redLED := false }, [Edge.reconnected]) := by
  simp [checkWiFiConnection]

lemma runChecks_append (a b : List (Bool × (Nat → Bool))) : ∀ w s,
    runChecks (a ++ b) w s =
      ((runChecks b (runChecks a w s).1 (runChecks a w s).2.1).1,
       (runChecks b (runChecks a w s).1 (runChecks a w s).2.1).2.1,
       (runChecks a w s).2.2 ++
         (runChecks b (runChecks a w s).1 (runChecks a w s).2.1).2.2) := by
  induction a with
  | nil => intro w s; simp [runChecks]
  | cons p rest ih =>
    intro w s
    obtain ⟨now, est⟩ := p
    simp [runChecks, ih, List.append_assoc]

lemma runChecks_down_w (ds : List (Nat → Bool)) : ∀ s : SysState,
    (runChecks (ds.map (fun e => (false, e))) false s).1 = false := by
  induction ds with
  | nil => intro s; rfl
  | cons e rest ih =>
    intro s
    simp only [List.map_cons, runChecks, check_down_stable]
    exact ih _

lemma runChecks_down_edges (ds : List (Nat → Bool)) : ∀ s : SysState,
    (runChecks (ds.map (fun e => (false, e))) false s).2.2 = [] := by
  induction ds with
  | nil => intro s; rfl
  | cons e rest ih =>
    intro s
    simp only [List.map_cons, runChecks, check_down_stable]
    simpa using ih _

lemma runChecks_up (cs : List (Nat → Bool)) : ∀ s : SysState,
    runChecks (cs.map (fun e => (true, e))) true s = (true, s, []) := by
  induction cs with
  | nil => intro s; rfl
  | cons e rest ih =>
    intro s
    simp only [List.map_cons, runChecks, check_up_stable]
    simp [ih]

/-- C8: over a run of due health checks whose observed link states form the
pattern Connected, then Disconnected (one or more checks), then Connected
(one or more checks), starting with the edge-detection flag tracking the
initial Connected state, the checks log exactly one "lost" edge followed by
exactly one "reconnected" edge, and the stable checks log no edge at all. -/
theorem claimC8_edges (e0 : Nat → Bool) (ds cs : List (Nat → Bool))
    (s : SysState) (hds : ds ≠ []) (hcs : cs ≠ []) :
    (runChecks ((true, e0) ::
        (ds.map (fun e => (false, e)) ++ cs.map (fun e => (true, e))))
      true s).2.2 = [Edge.lost, Edge.reconnected] := by
  obtain ⟨d, ds', rfl⟩ := List.exists_cons_of_ne_nil hds
  obtain ⟨c, cs', rfl⟩ := List.exists_cons_of_ne_nil hcs
  simp only [List.map_cons, List.cons_append, runChecks, check_up_stable,
    check_down_edge]
  rw [List.append_eq, runChecks_append]
  rw [runChecks_down_w, runChecks_down_edges]
  simp only [runChecks, check_up_edge, runChecks_up]
  simp

/-- Witness for C8 at a concrete one-check-down, one-check-up run. -/
theorem claimC8_witness :
    (runChecks ((true, fun _ => true) ::
        (([fun _ => false] : List (Nat → Bool)).map (fun e => (false, e)) ++
         ([fun _ => true] : List (Nat → Bool)).map (fun e => (true, e))))
      true ⟨0, 0, false, false⟩).2.2 = [Edge.lost, Edge.reconnected] :=
  claimC8_edges (fun _ => true) [fun _ => false] [fun _ => true]
    ⟨0, 0, false, false⟩ (by simp) (by simp)

/-- The two shared counters of the source (src/src/main.cpp lines 34-35). -/
inductive SharedVar
  | activeRequests
  | failedRequests
deriving DecidableEq

/-- One step of shared-state interaction as written in the source: a
`xSemaphoreTake(ledMutex, portMAX_DELAY)` / `xSemaphoreGive(ledMutex)` pair
member, a read or write of one of the two shared counters, or a
`digitalWrite(RED_LED_PIN, level)`. -/
inductive TallyAction
  | takeMutex
  | giveMutex
  | readShared (v : SharedVar)
  | writeShared (v : SharedVar)
  | writeRedLED (level : Bool)
deriving DecidableEq

/-- The counter reset of `pollEndpoints` (src/src/main.cpp lines 217-219):
`activeRequests = NUM_ENDPOINTS; failedRequests = 0;` with no mutex taken. -/
def resetActions : List TallyAction :=
  [TallyAction.writeShared SharedVar.activeRequests,
   TallyAction.writeShared SharedVar.failedRequests]

/-- The success branch of `sendGetRequest` (src/src/main.cpp lines 332-338):
mutex taken, `failedRequests` read (the `failedRequests == 0` test), red LED
conditionally written LOW, mutex given. -/
def successBranchActions : List TallyAction :=
  [TallyAction.takeMutex,
   TallyAction.readShared SharedVar.failedRequests,
   TallyAction.writeRedLED false,
   TallyAction.giveMutex]

/-- The `http.begin` failure branch of `sendGetRequest`
(src/src/main.cpp lines 289-304): red LED written HIGH under the mutex, then
`failedRequests++` (one read, one write) after the mutex is given back. -/
def beginFailBranchActions : List TallyAction :=
  [TallyAction.takeMutex, TallyAction.writeRedLED true, TallyAction.giveMutex,
   TallyAction.readShared SharedVar.failedRequests,
   TallyAction.writeShared SharedVar.failedRequests]

/-- The HTTP-error branch of `sendGetRequest` (src/src/main.cpp lines
339-351): red LED written HIGH under the mutex, then `failedRequests++`
after the mutex is given back. -/
def httpErrorBranchActions : List TallyAction :=
  [TallyAction.takeMutex, TallyAction.writeRedLED true, TallyAction.giveMutex,
   TallyAction.readShared SharedVar.failedRequests,
   TallyAction.writeShared SharedVar.failedRequests]

/-- The transport-error branch of `sendGetRequest` (src/src/main.cpp lines
352-379): red LED written HIGH under the mutex, then `failedRequests++`
after the mutex is given back. -/
def transportErrorBranchActions : List TallyAction :=
  [TallyAction.takeMutex, TallyAction.writeRedLED true, TallyAction.giveMutex,
   TallyAction.readShared SharedVar.failedRequests,
   TallyAction.writeShared SharedVar.failedRequests]

/-- The completion step of `sendGetRequestTask`
(src/src/main.cpp line 271): `activeRequests--`, no mutex taken. -/
def taskDecrementActions : List TallyAction :=
  [TallyAction.readShared SharedVar.activeRequests,
   TallyAction.writeShared SharedVar.activeRequests]

/-- One test of the coordinator's completion wait
(src/src/main.cpp line 249): an unlocked snapshot read of `activeRequests`;
the claim's stated permitted exception. -/
def waitLoopActions : List TallyAction :=
  [TallyAction.readShared SharedVar.activeRequests]

/-- The tally-access traces of the components the claim covers: the cycle
reset, the four outcome-recording branches, and the task wrapper's
decrement. -/
def recordingTraces : List (List TallyAction) :=
  [resetActions, successBranchActions, beginFailBranchActions,
   httpErrorBranchActions, transportErrorBranchActions, taskDecrementActions]

/-- The shared-counter accesses of a trace performed while the mutex is not
held; the second argument is the current hold depth. -/
def unlockedSharedAccesses : List TallyAction → Nat → List TallyAction
  | [], _ => []
  | TallyAction.takeMutex :: rest, d => unlockedSharedAccesses rest (d + 1)
  | TallyAction.giveMutex :: rest, d => unlockedSharedAccesses rest (d - 1)
  | TallyAction.readShared v :: rest, d =>
      (if d = 0 then [TallyAction.readShared v] else []) ++
        unlockedSharedAccesses rest d
  | TallyAction.writeShared v :: rest, d =>
      (if d = 0 then [TallyAction.writeShared v] else []) ++
        unlockedSharedAccesses rest d
  | TallyAction.writeRedLED _ :: rest, d => unlockedSharedAccesses rest d

/-- The red-LED writes of a trace performed while the mutex is not held. -/
def unlockedRedLEDWrites : List TallyAction → Nat → List TallyAction
  | [], _ => []
  | TallyAction.takeMutex :: rest, d => unlockedRedLEDWrites rest (d + 1)
  | TallyAction.giveMutex :: rest, d => unlockedRedLEDWrites rest (d - 1)
  | TallyAction.readShared _ :: rest, d => unlockedRedLEDWrites rest d
  | TallyAction.writeShared _ :: rest, d => unlockedRedLEDWrites rest d
  | TallyAction.writeRedLED level :: rest, d =>
      (if d = 0 then [TallyAction.writeRedLED level] else []) ++
        unlockedRedLEDWrites rest d

/-- C2 counterexample: the claim "every shared-counter access of the
recording, reset and decrement code happens while the mutex is held" is
false on the code — the `failedRequests++` of every error branch, the
`activeRequests--` of the task wrapper, and both reset writes happen with
the mutex not held, so the check over all recording traces evaluates to
`false`. -/
theorem claimC2_counterexample :
    (recordingTraces.all
      (fun t => decide (unlockedSharedAccesses t 0 = []))) = false := by
  decide

/-- C2 amended: in the source only the red-LED writes and the success
branch's `failedRequests == 0` snapshot read happen under the mutex; the
error branches' `failedRequests` increments, the task wrapper's
`activeRequests` decrement, and both cycle-reset writes access the shared
counters with the mutex not held (the wait loop's snapshot read is unlocked
as the claim already permits). -/
theorem claimC2_amended_locking :
    unlockedSharedAccesses successBranchActions 0 = [] ∧
    unlockedSharedAccesses resetActions 0 = resetActions ∧
    unlockedSharedAccesses beginFailBranchActions 0 =
      [TallyAction.readShared SharedVar.failedRequests,
       TallyAction.writeShared SharedVar.failedRequests] ∧
    unlockedSharedAccesses httpErrorBranchActions 0 =
      [TallyAction.readShared SharedVar.failedRequests,
       TallyAction.writeShared SharedVar.failedRequests] ∧
    unlockedSharedAccesses transportErrorBranchActions 0 =
      [TallyAction.readShared SharedVar.failedRequests,
       TallyAction.writeShared SharedVar.failedRequests] ∧
    unlockedSharedAccesses taskDecrementActions 0 = taskDecrementActions ∧
    unlockedSharedAccesses waitLoopActions 0 = waitLoopActions ∧
    unlockedRedLEDWrites resetActions 0 = [] ∧
    unlockedRedLEDWrites successBranchActions 0 = [] ∧
    unlockedRedLEDWrites beginFailBranchActions 0 = [] ∧
    unlockedRedLEDWrites httpErrorBranchActions 0 = [] ∧
    unlockedRedLEDWrites transportErrorBranchActions 0 = [] ∧
    unlockedRedLEDWrites taskDecrementActions 0 = [] := by
  decide

/-- The state right after `setup()` ran: the counters at their initial
values (src/src/main.cpp lines 34-35), both LEDs written LOW (lines 66-69). -/
def setupState : SysState := ⟨0, 0, false, false⟩

/-- Every modelled top-level operation of the program as a state transformer.
The blue LED pin is written only by `setup` (LOW, src/src/main.cpp line 68)
and inside `blinkBlueLED` (called with `times = 3` by `connectToWiFi`). -/
inductive SysOp
  | connect (status : Nat → Bool)
  | check (now : Bool) (est : Nat → Bool) (was : Bool)
  | poll (link : Bool) (n : Nat) (results : List WorkerResult)
  | blink (times delayMs : Nat)

/-- Run one modelled operation. -/
def runOp : SysOp → SysState → SysState
  | SysOp.connect status, s => (connectToWiFi status s).state
  | SysOp.check now est was, s => (checkWiFiConnection now est was s).2.1
  | SysOp.poll link n results, s => (pollEndpoints link n results s).state
  | SysOp.blink times delayMs, s =>
      { s with blueLED := blinkBlueLED times delayMs s.blueLED }

/-- Run a sequence of modelled operations. -/
def runOps (ops : List SysOp) (s : SysState) : SysState :=
  ops.foldl (fun st op => runOp op st) s

lemma blinkBlueLED_from_false (times delayMs : Nat) :
    blinkBlueLED times delayMs false = false := by
  induction times with
  | zero => rfl
  | succ t ih => rw [blinkBlueLED]; exact ih

lemma blinkBlueLED_pos (times delayMs : Nat) (b : Bool) (h : 0 < times) :
    blinkBlueLED times delayMs b = false := by
  cases times with
  | zero => omega
  | succ t => rw [blinkBlueLED]; exact blinkBlueLED_from_false t delayMs

lemma connectToWiFi_blueLED (status : Nat → Bool) (s : SysState)
    (h : s.blueLED = false) :
    (connectToWiFi status s).state.blueLED = false := by
  by_cases hf : status (connectLoop status 0 (MAX_ATTEMPTS + 1) + 1) = true
  · simp [connectToWiFi, hf, blinkBlueLED_pos 3 200 s.blueLED (by omega)]
  · have hf' : status (connectLoop status 0 (MAX_ATTEMPTS + 1) + 1) = false := by
      simpa using hf
    simpa [connectToWiFi, hf'] using h

lemma runOp_blueLED (op : SysOp) (s : SysState) (h : s.blueLED = false) :
    (runOp op s).blueLED = false := by
  cases op with
  | connect status => exact connectToWiFi_blueLED status s h
  | check now est was =>
    cases now with
    | false =>
      cases was with
      | false =>
        rw [runOp, check_down_stable]
        exact connectToWiFi_blueLED est s h
      | true =>
        rw [runOp, check_down_edge]
        exact connectToWiFi_blueLED est _ h
    | true =>
      cases was with
      | false => rw [runOp, check_up_edge]; exact h
      | true => rw [runOp, check_up_stable]; exact h
  | poll link n results =>
    cases link with
    | false => simpa [runOp, pollEndpoints] using h
    | true =>
      have : (pollEndpoints true n results s).state =
          runWorkers results (cycleResetState n s) := by
        simp [pollEndpoints]
      rw [runOp, this, runWorkers_blueLED]
      simpa [cycleResetState] using h
  | blink times delayMs =>
    rw [runOp]
    simp only [h]
    exact blinkBlueLED_from_false times delayMs

lemma runOps_blueLED (ops : List SysOp) : ∀ s : SysState, s.blueLED = false →
    (runOps ops s).blueLED = false := by
  induction ops with
  | nil => intro s h; exact h
  | cons op rest ih =>
    intro s h
    exact ih (runOp op s) (runOp_blueLED op s h)

/-- C10: `blinkBlueLED` ends with the blue LED LOW from any start whenever it
performs at least one iteration, and from a LOW start for any iteration
count; since `setup` writes the blue LED LOW and no modelled operation ends
with it HIGH, every run of operations from the post-`setup` state leaves the
blue LED LOW — the healthy indicator is never left latched on. -/
theorem claimC10_blueNeverLatched :
    (∀ times delayMs : Nat, 0 < times →
      ∀ b : Bool, blinkBlueLED times delayMs b = false) ∧
    (∀ times delayMs : Nat, blinkBlueLED times delayMs false = false) ∧
    (∀ ops : List SysOp, ∀ s : SysState, s.blueLED = false →
      (runOps ops s).blueLED = false) ∧
    (∀ ops : List SysOp, (runOps ops setupState).blueLED = false) := by
  refine ⟨?_, ?_, ?_, ?_⟩
  · intro times delayMs h b
    exact blinkBlueLED_pos times delayMs b h
  · intro times delayMs
    exact blinkBlueLED_from_false times delayMs
  · intro ops s h
    exact runOps_blueLED ops s h
  · intro ops
    exact runOps_blueLED ops setupState rfl

/-- Witness for C10 at a concrete blink call and a concrete run. -/
theorem claimC10_witness :
    blinkBlueLED 3 200 true = false ∧
    (runOps [SysOp.blink 0 100] ⟨5, 1, true, false⟩).blueLED = false :=
  ⟨claimC10_blueNeverLatched.1 3 200 (by omega) true,
   claimC10_blueNeverLatched.2.2.1 [SysOp.blink 0 100] ⟨5, 1, true, false⟩ rfl⟩

end SvitloWatcher
